import Mathlib

/-!
# Verification of the research-workflow orchestration engine

Shallow embedding of the workflow orchestration code of the
autonomous-research-and-report-generation-system repository, chiefly
`src/langgraph/workflow.py` (the `ResearchState` object, the node
functions of `ResearchWorkflow`, the graph wiring of
`_create_workflow_graph`, `start_workflow`) and
`src/backend/app/api/v1/endpoints/jobs.py` (the `cancel_job` and
`submit_review` endpoints), together with proofs and refutations of the
specification's claims about them.

Python `Dict[str, Any]` values are embedded as association lists over a
small inductive `PyObj` of python values; machine reals (quality scores)
are embedded as `ℚ` (the scores compared against are 0.8 and 0.6, exactly
representable); fallible calls are `Except String`.
-/

namespace ResearchRepo

/-- A Python value, as far as the workflow state needs: strings, rationals,
nested dicts and lists.  Stands in for `Any` in `Dict[str, Any]`. -/
inductive PyObj where
  | str (s : String)
  | num (q : ℚ)
  | dict (kvs : List (String × PyObj))
  | list (vs : List PyObj)

/-- A Python `Dict[str, Any]`, embedded as an association list. -/
def Dict := List (String × PyObj)

instance : EmptyCollection Dict := ⟨([] : List (String × PyObj))⟩

/-- Python dict item assignment `d[k] = v`: replace the binding of `k` if
present, otherwise append it. -/
def Dict.set (d : Dict) (k : String) (v : PyObj) : Dict :=
  match d with
  | [] => [(k, v)]
  | (k', v') :: rest =>
    if k' = k then (k, v) :: rest else (k', v') :: Dict.set rest k v

/-- A langchain chat message (`BaseMessage`): its `type` tag (`"human"`,
`"ai"`, ...), its `content`, and its `additional_kwargs`.  `msg.dict()` /
`BaseMessage.parse_obj` serialize these fields one for one. -/
structure Msg where
  type : String
  content : String
  additional_kwargs : Dict

/-- `HumanMessage(content=c)` from `langchain.schema`. -/
def HumanMessage (c : String) : Msg := ⟨"human", c, {}⟩

/-- `AIMessage(content=c)` from `langchain.schema`. -/
def AIMessage (c : String) : Msg := ⟨"ai", c, {}⟩

/-- The `ResearchState` class of `src/langgraph/workflow.py`: the state
object carried through the workflow.  The python `job_id` is a
`uuid.UUID`, i.e. a 128-bit integer; it is embedded as the underlying
natural number. -/
structure ResearchState where
  job_id : Nat
  query : String
  constraints : Dict
  output_config : Dict
  messages : List Msg
  sources : List Dict
  claims : List Dict
  citations : List Dict
  artifacts : List Dict
  current_node : String
  errors : List String
  metadata : Dict

/-- `ResearchState.__init__`: fresh state for a job.  `constraints or {}` /
`output_config or {}` turn a missing argument into the empty dict. -/
def ResearchState.init (job_id : Nat) (query : String)
    (constraints : Option Dict) (output_config : Option Dict) : ResearchState where
  job_id := job_id
  query := query
  constraints := constraints.getD {}
  output_config := output_config.getD {}
  messages := []
  sources := []
  claims := []
  citations := []
  artifacts := []
  current_node := "start"
  errors := []
  metadata := {}

/-- Modelled from the spec: the `JobStatus` enum lives in
`app.models.job`, which is not under `src/`; its constructors are taken
from the statuses used in `src/langgraph/workflow.py` and
`src/backend/app/api/v1/endpoints/jobs.py` plus the status list of §4.2 of
the spec (`created → queued → planning → retrieving → synthesizing →
drafting → fact_checking → visualizing → reviewing → (awaiting_human →)
formatting → completed`, with terminal `failed` and `cancelled`). -/
inductive JobStatus where
  | created
  | queued
  | planning
  | retrieving
  | synthesizing
  | drafting
  | fact_checking
  | visualizing
  | reviewing
  | awaiting_human
  | formatting
  | completed
  | failed
  | cancelled
deriving Repr, DecidableEq

/-- What a LangGraph node function of this code may hand back: a mutated
`ResearchState`, or — as `_review_gate_node` and `_human_approval_node`
actually do on their success paths — a bare verdict string instead of a
state. -/
inductive NodeResult where
  | updated (s : ResearchState)
  | verdict (v : String)

/-- Result of running one node: what the function returned, plus the job
status updates it pushed through `job_service.update_job_status`, in
order. -/
structure NodeOut where
  result : NodeResult
  statuses : List JobStatus

/-- `_query_understanding_node`.  The executor outcome stands for
`_create_research_plan` (the plan dict, or a raised exception's message).
On success it stores the plan in `metadata`, sets `current_node`, and
appends the two messages; on exception it appends to `errors` and sets
`current_node = "error"`.  Either way `update_job_status(PLANNING)` has
already run. -/
def queryUnderstandingNode (plan : Except String Dict) (s : ResearchState) : NodeOut :=
  match plan with
  | .ok p =>
    ⟨.updated { s with
        metadata := s.metadata.set "research_plan" (.dict p)
        current_node := "query_understanding"
        messages := s.messages ++ [HumanMessage s.query,
          AIMessage ("Research plan created: " ++ s.query)] },
      [.planning]⟩
  | .error e =>
    ⟨.updated { s with
        errors := s.errors ++ ["Query understanding failed: " ++ e]
        current_node := "error" },
      [.planning]⟩

/-- `_retrieval_hub_node`: on success replaces `sources` and sets
`current_node`; on exception appends the error and sets
`current_node = "error"`. -/
def retrievalHubNode (sources : Except String (List Dict)) (s : ResearchState) : NodeOut :=
  match sources with
  | .ok src =>
    ⟨.updated { s with sources := src, current_node := "retrieval_hub" }, [.retrieving]⟩
  | .error e =>
    ⟨.updated { s with
        errors := s.errors ++ ["Retrieval failed: " ++ e]
        current_node := "error" },
      [.retrieving]⟩

/-- `_evidence_synthesis_node`. -/
def evidenceSynthesisNode (claims : Except String (List Dict)) (s : ResearchState) : NodeOut :=
  match claims with
  | .ok cl =>
    ⟨.updated { s with claims := cl, current_node := "evidence_synthesis" }, [.synthesizing]⟩
  | .error e =>
    ⟨.updated { s with
        errors := s.errors ++ ["Evidence synthesis failed: " ++ e]
        current_node := "error" },
      [.synthesizing]⟩

/-- `_drafting_node`: stores the draft in `metadata["draft"]`. -/
def draftingNode (draft : Except String PyObj) (s : ResearchState) : NodeOut :=
  match draft with
  | .ok d =>
    ⟨.updated { s with
        metadata := s.metadata.set "draft" d
        current_node := "drafting" },
      [.drafting]⟩
  | .error e =>
    ⟨.updated { s with
        errors := s.errors ++ ["Drafting failed: " ++ e]
        current_node := "error" },
      [.drafting]⟩

/-- `_fact_checking_node`: replaces `claims` by the verified claims and
sets `citations`. -/
def factCheckingNode (check : Except String (List Dict × List Dict))
    (s : ResearchState) : NodeOut :=
  match check with
  | .ok vc =>
    ⟨.updated { s with
        claims := vc.1
        citations := vc.2
        current_node := "fact_checking" },
      [.fact_checking]⟩
  | .error e =>
    ⟨.updated { s with
        errors := s.errors ++ ["Fact checking failed: " ++ e]
        current_node := "error" },
      [.fact_checking]⟩

/-- `_visualization_node`: extends `artifacts` with the visualizations. -/
def visualizationNode (vis : Except String (List Dict)) (s : ResearchState) : NodeOut :=
  match vis with
  | .ok vs =>
    ⟨.updated { s with
        artifacts := s.artifacts ++ vs
        current_node := "visualization" },
      [.visualizing]⟩
  | .error e =>
    ⟨.updated { s with
        errors := s.errors ++ ["Visualization failed: " ++ e]
        current_node := "error" },
      [.visualizing]⟩

/-- The score-to-verdict decision inside `_review_gate_node`:
`score >= 0.8 → "approve"`, `score >= 0.6 → "request_changes"`, otherwise
`"human_review"`. -/
def reviewGateVerdict (score : ℚ) : String :=
  if score ≥ 8/10 then "approve"
  else if score ≥ 6/10 then "request_changes"
  else "human_review"

/-- `_review_gate_node`.  On the success path the python function
`return`s the verdict STRING, not the state; on exception it appends the
error to the state and returns the state with `current_node = "error"`.
Either way `update_job_status(REVIEWING)` has already run. -/
def reviewGateNode (quality : Except String ℚ) (s : ResearchState) : NodeOut :=
  match quality with
  | .ok score => ⟨.verdict (reviewGateVerdict score), [.reviewing]⟩
  | .error e =>
    ⟨.updated { s with
        errors := s.errors ++ ["Review gate failed: " ++ e]
        current_node := "error" },
      [.reviewing]⟩

/-- `_human_approval_node`: returns the STRING `"approve"` when
`_wait_for_human_approval` yields `"approve"`, the STRING
`"request_changes"` for any other answer; pushes no status update. -/
def humanApprovalNode (approval : Except String String) (s : ResearchState) : NodeOut :=
  match approval with
  | .ok a => ⟨.verdict (if a = "approve" then "approve" else "request_changes"), []⟩
  | .error e =>
    ⟨.updated { s with
        errors := s.errors ++ ["Human approval failed: " ++ e]
        current_node := "error" },
      []⟩

/-- `_formatting_node`: appends the report to `artifacts`, then marks the
job `COMPLETED`. -/
def formattingNode (report : Except String Dict) (s : ResearchState) : NodeOut :=
  match report with
  | .ok r =>
    ⟨.updated { s with
        artifacts := s.artifacts ++ [r]
        current_node := "formatting" },
      [.formatting, .completed]⟩
  | .error e =>
    ⟨.updated { s with
        errors := s.errors ++ ["Formatting failed: " ++ e]
        current_node := "error" },
      [.formatting]⟩

/-- `_review_gate_condition`, the function the conditional edge consults:
it returns `state.current_node`. -/
def reviewGateCondition (s : ResearchState) : String :=
  s.current_node

/-- The unconditional edges added in `_create_workflow_graph`
(`workflow.add_edge(a, b)`); `"__end__"` stands for LangGraph's `END`.
Note the edge `("human_approval", "drafting")` and the edge out of the
never-added node `"error"`. -/
def staticEdges : List (String × String) :=
  [("query_understanding", "retrieval_hub"),
   ("retrieval_hub", "evidence_synthesis"),
   ("evidence_synthesis", "drafting"),
   ("drafting", "fact_checking"),
   ("fact_checking", "visualization"),
   ("visualization", "review_gate"),
   ("human_approval", "drafting"),
   ("formatting", "__end__"),
   ("error", "__end__")]

/-- The branch map of the conditional edges out of `"review_gate"`: the
keys the router's return value is looked up in. -/
def branchMap : List (String × String) :=
  [("approve", "formatting"),
   ("request_changes", "drafting"),
   ("human_review", "human_approval")]

/-- The graph's next-node relation: out of `"review_gate"` the router
`_review_gate_condition` is applied to the state and its answer looked up
in `branchMap`; every other node follows its unconditional edge.  `none`
means the router's answer matches no branch key (LangGraph raises) or the
node has no outgoing edge. -/
def nextNode (n : String) (s : ResearchState) : Option String :=
  if n = "review_gate" then branchMap.lookup (reviewGateCondition s)
  else staticEdges.lookup n

/-- A LangGraph node either returned a state update (which becomes the
new state) or a bare string (no state field is updated by it). -/
def applyResult : NodeResult → ResearchState → ResearchState
  | .updated s', _ => s'
  | .verdict _, s => s

/-- One choice of outcome per stage executor, fixed for a run: the plan,
the retrieved sources, the synthesized claims, the draft, the fact-check
result, the visualizations, the quality score of `_quality_check`, the
human approval answer, and the final report. -/
structure Executors where
  plan : Except String Dict
  sources : Except String (List Dict)
  claims : Except String (List Dict)
  draft : Except String PyObj
  factCheck : Except String (List Dict × List Dict)
  visuals : Except String (List Dict)
  quality : Except String ℚ
  approval : Except String String
  report : Except String Dict

/-- Dispatch a node name to its node function. -/
def runNode (ex : Executors) (n : String) (s : ResearchState) : NodeOut :=
  if n = "query_understanding" then queryUnderstandingNode ex.plan s
  else if n = "retrieval_hub" then retrievalHubNode ex.sources s
  else if n = "evidence_synthesis" then evidenceSynthesisNode ex.claims s
  else if n = "drafting" then draftingNode ex.draft s
  else if n = "fact_checking" then factCheckingNode ex.factCheck s
  else if n = "visualization" then visualizationNode ex.visuals s
  else if n = "review_gate" then reviewGateNode ex.quality s
  else if n = "human_approval" then humanApprovalNode ex.approval s
  else if n = "formatting" then formattingNode ex.report s
  else ⟨.updated s, []⟩

/-- Trace of a graph run: the nodes executed in order, the job status
updates pushed in order, whether the run got stuck (router answer matched
no edge), whether it reached `END`, and the final state. -/
structure RunResult where
  visited : List String
  statuses : List JobStatus
  stuck : Bool
  finished : Bool
  final : ResearchState

/-- Execute the compiled graph from node `n` on state `s`, for at most
`fuel` node invocations: run the node, take its state update (a bare
verdict string updates nothing), and follow `nextNode`. -/
def run (ex : Executors) : Nat → String → ResearchState → RunResult
  | 0, _, s => ⟨[], [], false, false, s⟩
  | fuel + 1, n, s =>
    let out := runNode ex n s
    let s' := applyResult out.result s
    match nextNode n s' with
    | none => ⟨[n], out.statuses, true, false, s'⟩
    | some m =>
      if m = "__end__" then ⟨[n], out.statuses, false, true, s'⟩
      else
        let r := run ex fuel m s'
        ⟨n :: r.visited, out.statuses ++ r.statuses, r.stuck, r.finished, r.final⟩

/-- `start_workflow`: builds a FRESH `ResearchState` from the job's
inputs (its arguments are exactly `job_id, query, constraints,
output_config` — no checkpoint is loaded, by its very signature) and
invokes the graph at its entry point `"query_understanding"`. -/
def start_workflow (ex : Executors) (fuel : Nat) (job_id : Nat) (query : String)
    (constraints output_config : Option Dict) : RunResult :=
  run ex fuel "query_understanding" (ResearchState.init job_id query constraints output_config)

/-! ## Job records and the jobs API endpoints -/

/-- A job record, as far as the endpoints of
`src/backend/app/api/v1/endpoints/jobs.py` touch it: its id and its
status.  (The full `Job` model of `app.models.job` is not under `src/`;
only these two fields are read or written by the code under
verification.) -/
structure Job where
  id : Nat
  status : JobStatus
deriving Repr, DecidableEq

/-- A FastAPI `HTTPException`: status code and detail message. -/
structure HTTPError where
  status_code : Nat
  detail : String
deriving Repr, DecidableEq

/-- The `cancel_job` endpoint of
`src/backend/app/api/v1/endpoints/jobs.py` (DELETE `/jobs/job_id`).
Its argument is the looked-up job (`None` when `get_job_by_id` found
nothing).  The code: 404 when not found; 400 when the status is in
`[COMPLETED, FAILED]`; otherwise it calls
`update_job_status(job_id, JobStatus.FAILED)` and answers
`"Job cancelled successfully"`.  The returned pair is the updated job
record and the response message. -/
def cancel_job (job : Option Job) : Except HTTPError (Job × String) :=
  match job with
  | none => .error ⟨404, "Job not found"⟩
  | some j =>
    if j.status = .completed ∨ j.status = .failed then
      .error ⟨400, "Cannot cancel completed or failed job"⟩
    else
      .ok ({ j with status := .failed }, "Job cancelled successfully")

/-- Errors of the review-submission boundary (spec §6/§7):
`NotFoundError`, `ConflictError` (decision for a job not awaiting
review, or a duplicate decision), invalid action value. -/
inductive ReviewError where
  | notFound
  | conflict
  | invalidAction
deriving Repr, DecidableEq

/-- Outcome of a review submission: the response (route name on success,
error otherwise) together with the job record and workflow state AFTER
the call — equal to the inputs whenever the call is rejected. -/
structure ReviewOutcome where
  response : Except ReviewError String
  job : Job
  wf : ResearchState

/-- Modelled from the spec: `LangGraphService.process_review` — the
review-decision handler is code of this repository that is not under
`src/` (only its caller, `submit_review` in
`src/backend/app/api/v1/endpoints/jobs.py`, is).  Following §4.3 of the
spec: it validates that the job is currently `awaiting_human`
(`ConflictError` otherwise, no side effect), validates the action is one
of `approve`, `request_changes`, `reject`, routes `approve → formatting`
and `request_changes | reject → drafting`, and carries the instructions
into `WorkflowState.metadata` for the next drafting pass. -/
def process_review (j : Job) (wf : ResearchState)
    (action instructions : Option String) : ReviewOutcome :=
  if j.status ≠ .awaiting_human then ⟨.error .conflict, j, wf⟩
  else if action = some "approve" then
    ⟨.ok "formatting", { j with status := .formatting }, wf⟩
  else if action = some "request_changes" ∨ action = some "reject" then
    ⟨.ok "drafting", { j with status := .drafting },
      { wf with metadata :=
          match instructions with
          | some i => wf.metadata.set "review_instructions" (.str i)
          | none => wf.metadata }⟩
  else ⟨.error .invalidAction, j, wf⟩

/-- The `submit_review` endpoint of
`src/backend/app/api/v1/endpoints/jobs.py` (POST `/jobs/job_id/review`):
404 when the job lookup failed, otherwise it hands
`review_data.get("action")` and `review_data.get("instructions")`
straight to `LangGraphService.process_review` — the endpoint itself
performs no status validation. -/
def submit_review (job : Option Job) (wf : ResearchState)
    (action instructions : Option String) : Except HTTPError ReviewOutcome :=
  match job with
  | none => .error ⟨404, "Job not found"⟩
  | some j => .ok (process_review j wf action instructions)

/-! ## Checkpoints -/

/-- Modelled from the spec (§3): the `Checkpoint` record — job id, stage
name, per-job monotonic sequence number.  The checkpoint model of
`app.models` is not under `src/`; nothing in `src/` reads checkpoints
back (see `start_workflow`). -/
structure Checkpoint where
  job_id : Nat
  stage : String
  seq : Nat
deriving Repr, DecidableEq

/-- The stage names that already own a checkpoint in a store. -/
def checkpointedStages (store : List Checkpoint) : List String :=
  store.map (·.stage)

/-- A concrete checkpoint store for job 1: checkpoints exist for the
first four stages, the latest (sequence 4) at `"drafting"`.  Per the
spec, resuming job 1 must re-enter at `"fact_checking"`. -/
def sampleStore : List Checkpoint :=
  [⟨1, "query_understanding", 1⟩, ⟨1, "retrieval_hub", 2⟩,
   ⟨1, "evidence_synthesis", 3⟩, ⟨1, "drafting", 4⟩]

/-! ## Serialization: `ResearchState.to_dict` / `ResearchState.from_dict`

`to_dict` renders `job_id` with python's `str(uuid)` — 32 lowercase hex
digits in 8-4-4-4-12 groups — and `from_dict` reparses it with
`UUID(str)`, which strips the dashes and reads the 32 hex digits back.
Both directions are embedded executably below. -/

/-- Lowercase hex digit character for a value below 16 (python formats
UUIDs in lowercase): `0`–`9` are code points 48–57, `a`–`f` are 97–102. -/
def hexChar (d : Nat) : Char :=
  if d < 10 then Char.ofNat (48 + d) else Char.ofNat (87 + min d 15)

/-- Value of a lowercase hex digit character, by code-point range. -/
def hexVal (c : Char) : Option Nat :=
  if 48 ≤ c.toNat ∧ c.toNat ≤ 57 then some (c.toNat - 48)
  else if 97 ≤ c.toNat ∧ c.toNat ≤ 102 then some (c.toNat - 87)
  else none

/-- The `k` low-order base-16 digits of `n`, most significant first. -/
def natToHexBE : Nat → Nat → List Nat
  | 0, _ => []
  | k + 1, n => natToHexBE k (n / 16) ++ [n % 16]

/-- Recombine big-endian base-16 digits into a natural number. -/
def ofHexDigits (ds : List Nat) : Nat :=
  ds.foldl (fun a d => 16 * a + d) 0

/-- Insert the dashes of the canonical UUID text form (8-4-4-4-12). -/
def uuidDashJoin (cs : List Char) : List Char :=
  cs.take 8 ++ '-' ::
    ((cs.drop 8).take 4 ++ '-' ::
      (((cs.drop 8).drop 4).take 4 ++ '-' ::
        ((((cs.drop 8).drop 4).drop 4).take 4 ++ '-' ::
          ((((cs.drop 8).drop 4).drop 4).drop 4))))

/-- Python `str(uuid)`: the 32 hex digits of the 128-bit value, dashed. -/
def uuidStr (n : Nat) : String :=
  ⟨uuidDashJoin ((natToHexBE 32 n).map hexChar)⟩

/-- The character test `UUID(...)` strips with: keep everything that is
not a dash. -/
def noDash (c : Char) : Bool := c ≠ '-'

/-- Python `UUID(s)` on a canonical form: strip dashes, expect exactly 32
hex digits, read them back. -/
def uuidParse (s : String) : Option Nat :=
  let cs := s.data.filter noDash
  if cs.length = 32 then (cs.mapM hexVal).map ofHexDigits else none

/-- The dictionary produced by `msg.dict()` for a langchain message:
the same three fields, serialized. -/
structure MsgData where
  type : String
  content : String
  additional_kwargs : Dict

/-- `msg.dict()`. -/
def Msg.dict (m : Msg) : MsgData :=
  ⟨m.type, m.content, m.additional_kwargs⟩

/-- `BaseMessage.parse_obj`: rebuild the message from its fields. -/
def MsgData.parse_obj (d : MsgData) : Msg :=
  ⟨d.type, d.content, d.additional_kwargs⟩

/-- The dictionary built by `ResearchState.to_dict` / consumed by
`ResearchState.from_dict`.  Every field is optional: `from_dict` reads
`job_id` and `query` with `data[...]` (failing when absent) and every
other key with `data.get(key, default)`. -/
structure StateDict where
  job_id : Option String
  query : Option String
  constraints : Option Dict
  output_config : Option Dict
  messages : Option (List MsgData)
  sources : Option (List Dict)
  claims : Option (List Dict)
  citations : Option (List Dict)
  artifacts : Option (List Dict)
  current_node : Option String
  errors : Option (List String)
  metadata : Option Dict

/-- `ResearchState.to_dict`: writes every one of the twelve keys;
`job_id` as `str(self.job_id)`, `messages` as `[msg.dict() for msg in
self.messages]`, all other fields verbatim. -/
def ResearchState.to_dict (s : ResearchState) : StateDict where
  job_id := some (uuidStr s.job_id)
  query := some s.query
  constraints := some s.constraints
  output_config := some s.output_config
  messages := some (s.messages.map Msg.dict)
  sources := some s.sources
  claims := some s.claims
  citations := some s.citations
  artifacts := some s.artifacts
  current_node := some s.current_node
  errors := some s.errors
  metadata := some s.metadata

/-- `ResearchState.from_dict`: requires `job_id` (parsed with `UUID(...)`)
and `query`; reads every other key with `data.get(key, default)`, the
defaults being those of `ResearchState.__init__` (`{}`, `[]`, `"start"`),
and rebuilds `messages` with `BaseMessage.parse_obj`. -/
def ResearchState.from_dict (d : StateDict) : Option ResearchState := do
  let jid ← d.job_id
  let q ← d.query
  let jobId ← uuidParse jid
  pure
    { job_id := jobId
      query := q
      constraints := d.constraints.getD {}
      output_config := d.output_config.getD {}
      messages := (d.messages.getD []).map MsgData.parse_obj
      sources := d.sources.getD []
      claims := d.claims.getD []
      citations := d.citations.getD []
      artifacts := d.artifacts.getD []
      current_node := d.current_node.getD "start"
      errors := d.errors.getD []
      metadata := d.metadata.getD {} }

/-! ## Concrete fixtures used by the claim theorems -/

/-- All stage executors succeed (with empty payloads) and the quality
check returns `q` — the situation of the spec's end-to-end scenarios. -/
def happyExecutors (q : ℚ) : Executors :=
  ⟨.ok {}, .ok [], .ok [], .ok (.dict {}), .ok ([], []), .ok [], .ok q,
   .ok "approve", .ok {}⟩

/-- Like `happyExecutors`, but `_create_research_plan` raises `boom`. -/
def failPlanExecutors : Executors :=
  { happyExecutors (85/100) with plan := .error "boom" }

/-- Every value the node functions of `src/langgraph/workflow.py` ever
assign to `state.current_node`, plus the initial `"start"`. -/
def pipelineNodeNames : List String :=
  ["start", "query_understanding", "retrieval_hub", "evidence_synthesis",
   "drafting", "fact_checking", "visualization", "formatting", "error"]

/-- A state as it stands when the review-gate router runs after a
successful visualization stage. -/
def sampleReviewState : ResearchState :=
  { ResearchState.init 1 "impact of X" none none with current_node := "visualization" }

/-! ## Helper lemmas -/

theorem natToHexBE_length (k : Nat) : ∀ n, (natToHexBE k n).length = k := by
  induction k with
  | zero => intro n; rfl
  | succ k ih => intro n; simp [natToHexBE, ih]

theorem natToHexBE_lt (k : Nat) : ∀ n, ∀ d ∈ natToHexBE k n, d < 16 := by
  induction k with
  | zero => intro n d hd; simp [natToHexBE] at hd
  | succ k ih =>
    intro n d hd
    simp only [natToHexBE, List.mem_append, List.mem_singleton] at hd
    rcases hd with hd | hd
    · exact ih _ d hd
    · subst hd; exact Nat.mod_lt _ (by norm_num)

theorem ofHexDigits_append_single (ds : List Nat) (d : Nat) :
    ofHexDigits (ds ++ [d]) = 16 * ofHexDigits ds + d := by
  simp [ofHexDigits, List.foldl_append]

theorem ofHexDigits_natToHexBE (k : Nat) :
    ∀ n, ofHexDigits (natToHexBE k n) = n % 16 ^ k := by
  induction k with
  | zero => intro n; simp [natToHexBE, ofHexDigits, Nat.mod_one]
  | succ k ih =>
    intro n
    rw [natToHexBE, ofHexDigits_append_single, ih]
    rw [pow_succ, mul_comm (16 ^ k) 16, Nat.mod_mul]
    ring

theorem hexVal_hexChar (d : Nat) (h : d < 16) : hexVal (hexChar d) = some d := by
  interval_cases d <;> decide

theorem hexChar_ne_dash (d : Nat) : hexChar d ≠ '-' := by
  rcases Nat.lt_or_ge d 16 with h | h
  · interval_cases d <;> decide
  · have hmin : min d 15 = 15 := min_eq_right (by omega)
    rw [hexChar, if_neg (by omega), hmin]
    decide

theorem mapM_hexVal_map_hexChar (ds : List Nat) (h : ∀ d ∈ ds, d < 16) :
    (ds.map hexChar).mapM hexVal = some ds := by
  induction ds with
  | nil => rfl
  | cons d ds ih =>
    simp only [List.map_cons, List.mapM_cons]
    rw [hexVal_hexChar d (h d (by simp)), ih (fun x hx => h x (by simp [hx]))]
    rfl

theorem filter_noDash_eq_self (l : List Char) (h : ∀ c ∈ l, c ≠ '-') :
    l.filter noDash = l := by
  refine List.filter_eq_self.mpr ?_
  intro a ha
  simpa [noDash] using h a ha

theorem filter_noDash_dash_cons (l : List Char) :
    List.filter noDash ('-' :: l) = List.filter noDash l := rfl

theorem filter_uuidDashJoin (cs : List Char) (h : ∀ c ∈ cs, c ≠ '-') :
    (uuidDashJoin cs).filter noDash = cs := by
  have h1 : ∀ c ∈ cs.take 8, c ≠ '-' := fun c hc => h c (List.mem_of_mem_take hc)
  have hd8 : ∀ c ∈ cs.drop 8, c ≠ '-' := fun c hc => h c (List.mem_of_mem_drop hc)
  have h2 : ∀ c ∈ (cs.drop 8).take 4, c ≠ '-' :=
    fun c hc => hd8 c (List.mem_of_mem_take hc)
  have hd4 : ∀ c ∈ (cs.drop 8).drop 4, c ≠ '-' :=
    fun c hc => hd8 c (List.mem_of_mem_drop hc)
  have h3 : ∀ c ∈ ((cs.drop 8).drop 4).take 4, c ≠ '-' :=
    fun c hc => hd4 c (List.mem_of_mem_take hc)
  have hd44 : ∀ c ∈ ((cs.drop 8).drop 4).drop 4, c ≠ '-' :=
    fun c hc => hd4 c (List.mem_of_mem_drop hc)
  have h4 : ∀ c ∈ (((cs.drop 8).drop 4).drop 4).take 4, c ≠ '-' :=
    fun c hc => hd44 c (List.mem_of_mem_take hc)
  have h5 : ∀ c ∈ (((cs.drop 8).drop 4).drop 4).drop 4, c ≠ '-' :=
    fun c hc => hd44 c (List.mem_of_mem_drop hc)
  rw [uuidDashJoin]
  rw [List.filter_append, filter_noDash_dash_cons, List.filter_append,
    filter_noDash_dash_cons, List.filter_append, filter_noDash_dash_cons,
    List.filter_append, filter_noDash_dash_cons]
  rw [filter_noDash_eq_self _ h1, filter_noDash_eq_self _ h2,
    filter_noDash_eq_self _ h3, filter_noDash_eq_self _ h4,
    filter_noDash_eq_self _ h5]
  rw [List.take_append_drop, List.take_append_drop, List.take_append_drop,
    List.take_append_drop]

/-- Round trip of python's `str(uuid)` / `UUID(str)` on a 128-bit value. -/
theorem uuidParse_uuidStr (n : Nat) (h : n < 2 ^ 128) :
    uuidParse (uuidStr n) = some n := by
  have hdigits : ∀ d ∈ natToHexBE 32 n, d < 16 := natToHexBE_lt 32 n
  have hnodash : ∀ c ∈ (natToHexBE 32 n).map hexChar, c ≠ '-' := by
    intro c hc
    rcases List.mem_map.mp hc with ⟨d, _, rfl⟩
    exact hexChar_ne_dash d
  rw [uuidParse, uuidStr]
  show (if (((uuidDashJoin ((natToHexBE 32 n).map hexChar)).filter noDash).length = 32)
    then ((((uuidDashJoin ((natToHexBE 32 n).map hexChar)).filter noDash).mapM
      hexVal).map ofHexDigits)
    else none) = some n
  rw [filter_uuidDashJoin _ hnodash]
  rw [List.length_map, natToHexBE_length]
  rw [if_pos rfl]
  rw [mapM_hexVal_map_hexChar _ hdigits]
  show some (ofHexDigits (natToHexBE 32 n)) = some n
  rw [ofHexDigits_natToHexBE]
  congr 1
  have h16 : (16 : Nat) ^ 32 = 2 ^ 128 := by norm_num
  rw [h16]
  exact Nat.mod_eq_of_lt h

/-- `BaseMessage.parse_obj` undoes `msg.dict()`, message list wise. -/
theorem map_parse_obj_dict (l : List Msg) :
    (l.map Msg.dict).map MsgData.parse_obj = l := by
  induction l with
  | nil => rfl
  | cons m l ih =>
    simp only [List.map_cons, ih]
    rfl

/-! ## Claim theorems -/

/-- C9 (confirmed): for every `WorkflowState` reaching the review-gate
branch through the normal pipeline — i.e. whose `current_node` is one of
the values the node functions ever assign — the routing function
`_review_gate_condition` returns `state.current_node`, which is never one
of the branch map's keys `approve`, `request_changes`, `human_review`;
the score-based verdict of `_review_gate_node` is not what the
conditional edge consults, and the branch-map lookup finds no matching
key (`nextNode "review_gate" s = none`). -/
theorem C9_review_gate_condition_unmatched (s : ResearchState)
    (h : s.current_node ∈ pipelineNodeNames) :
    reviewGateCondition s = s.current_node ∧
    s.current_node ∉ ["approve", "request_changes", "human_review"] ∧
    nextNode "review_gate" s = none := by
  have hnext : nextNode "review_gate" s = branchMap.lookup s.current_node := by
    simp [nextNode, reviewGateCondition]
  simp only [pipelineNodeNames, List.mem_cons, List.not_mem_nil, or_false] at h
  rcases h with h | h | h | h | h | h | h | h | h <;>
    exact ⟨rfl, by rw [h]; decide, by rw [hnext, h]; rfl⟩

/-- Witness for C9 at the state produced by a successful visualization
stage (`current_node = "visualization"`). -/
theorem C9_review_gate_condition_unmatched_witness :
    sampleReviewState.current_node ∈ pipelineNodeNames ∧
    (reviewGateCondition sampleReviewState = sampleReviewState.current_node ∧
     sampleReviewState.current_node ∉ ["approve", "request_changes", "human_review"] ∧
     nextNode "review_gate" sampleReviewState = none) :=
  ⟨by decide, C9_review_gate_condition_unmatched sampleReviewState (by decide)⟩

/-- C1 (code bug): with quality score 0.85 the verdict computed inside
`_review_gate_node` is `"approve"` and the branch map sends `"approve"`
to `"formatting"` — but the conditional edge consults
`_review_gate_condition` instead, so the run with score 0.85 gets stuck
at `review_gate` and never proceeds to `formatting`, contrary to the
claim that a score ≥ 0.8 proceeds to formatting. -/
theorem C1_score_routing_never_fires :
    reviewGateVerdict (85/100) = "approve" ∧
    branchMap.lookup "approve" = some "formatting" ∧
    (run (happyExecutors (85/100)) 20 "query_understanding"
      (ResearchState.init 1 "impact of X" none none)).stuck = true ∧
    "formatting" ∉ (run (happyExecutors (85/100)) 20 "query_understanding"
      (ResearchState.init 1 "impact of X" none none)).visited ∧
    (run (happyExecutors (85/100)) 20 "query_understanding"
      (ResearchState.init 1 "impact of X" none none)).visited.getLast?
      = some "review_gate" := by
  refine ⟨by norm_num [reviewGateVerdict], rfl, rfl, by decide, rfl⟩

/-- C2 (code bug): the review-gate verdict is a function of the score
alone — no loop-back counter exists anywhere in the state or the node —
so with a constant score of 0.7 it answers `"request_changes"` at every
visit; and in the actual run with constant score 0.7 the workflow never
transitions to `human_approval` at all (it gets stuck at the first
`review_gate` visit, with `drafting` executed exactly once), so no bound
of 3 loop-backs followed by forced human review exists. -/
theorem C2_loop_bound_missing :
    (∀ s : ResearchState,
      (reviewGateNode (.ok (7/10)) s).result = .verdict "request_changes") ∧
    (run (happyExecutors (7/10)) 30 "query_understanding"
      (ResearchState.init 1 "impact of X" none none)).visited.count "drafting" = 1 ∧
    "human_approval" ∉ (run (happyExecutors (7/10)) 30 "query_understanding"
      (ResearchState.init 1 "impact of X" none none)).visited ∧
    (run (happyExecutors (7/10)) 30 "query_understanding"
      (ResearchState.init 1 "impact of X" none none)).stuck = true := by
  refine ⟨?_, by decide, by decide, rfl⟩
  intro s
  show NodeResult.verdict (reviewGateVerdict (7/10)) = _
  rw [show reviewGateVerdict (7/10) = "request_changes" from by
    norm_num [reviewGateVerdict]]

/-- C3 (code bug): the graph wires `human_approval` to `drafting` with an
UNCONDITIONAL edge (`workflow.add_edge("human_approval", "drafting")`),
so even when the human decision is `approve` — and
`_human_approval_node` dutifully returns the verdict string `"approve"` —
the workflow routes to `drafting`, never to `formatting`, contrary to
the claim that approve routes to formatting. -/
theorem C3_approve_routed_to_drafting :
    (∀ s : ResearchState,
      (humanApprovalNode (.ok "approve") s).result = .verdict "approve") ∧
    (∀ s : ResearchState, nextNode "human_approval" s = some "drafting") ∧
    (∀ s : ResearchState, nextNode "human_approval" s ≠ some "formatting") := by
  refine ⟨fun s => rfl, fun s => rfl, fun s => ?_⟩
  rw [show nextNode "human_approval" s = some "drafting" from rfl]
  decide

/-- C4 (code bug): when the `query_understanding` executor raises, the
node appends the error to `WorkflowState.errors` and sets
`current_node = "error"`, but the only status update pushed is
`PLANNING` — the job is never transitioned to `failed` — and the static
edge still advances to `retrieval_hub`, so the engine DOES start further
stages after a failure, contrary to the claim. -/
theorem C4_stage_failure_not_terminal :
    (applyResult (queryUnderstandingNode (.error "boom")
        (ResearchState.init 1 "q" none none)).result
      (ResearchState.init 1 "q" none none)).errors
      = ["Query understanding failed: boom"] ∧
    (applyResult (queryUnderstandingNode (.error "boom")
        (ResearchState.init 1 "q" none none)).result
      (ResearchState.init 1 "q" none none)).current_node = "error" ∧
    (queryUnderstandingNode (.error "boom")
      (ResearchState.init 1 "q" none none)).statuses = [.planning] ∧
    nextNode "query_understanding"
      (applyResult (queryUnderstandingNode (.error "boom")
          (ResearchState.init 1 "q" none none)).result
        (ResearchState.init 1 "q" none none)) = some "retrieval_hub" ∧
    "retrieval_hub" ∈ (run failPlanExecutors 30 "query_understanding"
      (ResearchState.init 1 "q" none none)).visited ∧
    JobStatus.failed ∉ (run failPlanExecutors 30 "query_understanding"
      (ResearchState.init 1 "q" none none)).statuses :=
  ⟨rfl, rfl, rfl, rfl, by decide, by decide⟩

/-- C5 (code bug): cancelling a non-terminal job (here `reviewing`)
succeeds but transitions the job to `failed` — not `cancelled` — while
answering "Job cancelled successfully"; and a job already in the
terminal status `cancelled` is NOT rejected: the endpoint only rejects
`completed` and `failed`, and happily "cancels" a cancelled job into
`failed`. -/
theorem C5_cancel_marks_failed :
    cancel_job (some ⟨1, .reviewing⟩)
      = .ok (⟨1, .failed⟩, "Job cancelled successfully") ∧
    cancel_job (some ⟨2, .cancelled⟩)
      = .ok (⟨2, .failed⟩, "Job cancelled successfully") ∧
    JobStatus.failed ≠ JobStatus.cancelled :=
  ⟨rfl, rfl, by decide⟩

/-- C6 (confirmed, against the spec-modelled `process_review`): a review
decision for a job that is not `awaiting_human` is answered with the
conflict error and both the job record and the workflow state in the
outcome are exactly the inputs; and after any successfully consumed
decision the job is no longer `awaiting_human`, so a second decision for
the same gate is likewise rejected with a conflict and no change. -/
theorem C6_review_conflict_no_side_effect (j : Job) (wf : ResearchState)
    (a i a2 i2 : Option String) :
    (j.status ≠ .awaiting_human →
      submit_review (some j) wf a i = .ok ⟨.error .conflict, j, wf⟩) ∧
    (∀ route, (process_review j wf a i).response = .ok route →
      submit_review (some (process_review j wf a i).job)
          (process_review j wf a i).wf a2 i2
        = .ok ⟨.error .conflict, (process_review j wf a i).job,
            (process_review j wf a i).wf⟩) := by
  constructor
  · intro h
    simp [submit_review, process_review, h]
  · intro route hr
    by_cases hs : j.status = .awaiting_human
    · by_cases ha : a = some "approve"
      · simp [process_review, hs, ha, submit_review]
      · by_cases hrc : a = some "request_changes" ∨ a = some "reject"
        · simp [process_review, hs, ha, hrc, submit_review]
        · simp [process_review, hs, ha, hrc] at hr
    · simp [process_review, hs] at hr

/-- Witness for C6: a decision submitted for a `completed` job is
rejected with the conflict error and changes nothing. -/
theorem C6_review_conflict_no_side_effect_witness :
    (Job.mk 1 .completed).status ≠ JobStatus.awaiting_human ∧
    submit_review (some ⟨1, .completed⟩) (ResearchState.init 1 "q" none none)
        (some "approve") none
      = .ok ⟨.error .conflict, ⟨1, .completed⟩,
          ResearchState.init 1 "q" none none⟩ :=
  ⟨by decide,
    (C6_review_conflict_no_side_effect ⟨1, .completed⟩
      (ResearchState.init 1 "q" none none) (some "approve") none none none).1
      (by decide)⟩

/-- C7 (code bug): `start_workflow` builds a fresh `ResearchState`
(`current_node = "start"`) from the job inputs alone — its signature has
no checkpoint parameter and nothing in `src/` reads a checkpoint back —
and enters the graph at `query_understanding`.  Against a store holding
checkpoints through `drafting` (latest sequence 4), the claim demands
re-entry at `fact_checking` with no checkpointed stage re-executed; the
code instead executes `query_understanding` first and re-executes
`drafting`, both stages whose checkpoints exist. -/
theorem C7_start_workflow_restarts_from_scratch :
    (ResearchState.init 1 "impact of X" none none).current_node = "start" ∧
    (start_workflow (happyExecutors (85/100)) 30 1 "impact of X"
      none none).visited.head? = some "query_understanding" ∧
    "query_understanding" ∈ checkpointedStages sampleStore ∧
    "drafting" ∈ (start_workflow (happyExecutors (85/100)) 30 1 "impact of X"
      none none).visited ∧
    "drafting" ∈ checkpointedStages sampleStore ∧
    (start_workflow (happyExecutors (85/100)) 30 1 "impact of X"
      none none).visited.head? ≠ some "fact_checking" :=
  ⟨rfl, rfl, by decide, by decide, by decide, by decide⟩

/-- C8 (code bug): with every executor succeeding and a constant quality
score of 0.9 (verdict `"approve"`), the run executes exactly the seven
stages up to `review_gate` and then gets stuck — `formatting` is never
reached, the run does not finish, and the job is never marked
`COMPLETED` — contrary to the claimed eight-stage sequence ending in
`completed`. -/
theorem C8_happy_path_stuck_before_formatting :
    reviewGateVerdict (9/10) = "approve" ∧
    (run (happyExecutors (9/10)) 30 "query_understanding"
      (ResearchState.init 1 "impact of X" none none)).visited
      = ["query_understanding", "retrieval_hub", "evidence_synthesis",
         "drafting", "fact_checking", "visualization", "review_gate"] ∧
    (run (happyExecutors (9/10)) 30 "query_understanding"
      (ResearchState.init 1 "impact of X" none none)).finished = false ∧
    (run (happyExecutors (9/10)) 30 "query_understanding"
      (ResearchState.init 1 "impact of X" none none)).stuck = true ∧
    JobStatus.completed ∉ (run (happyExecutors (9/10)) 30 "query_understanding"
      (ResearchState.init 1 "impact of X" none none)).statuses :=
  ⟨by norm_num [reviewGateVerdict], rfl, rfl, rfl, by decide⟩

/-- C10 (confirmed): `from_dict` inverts `to_dict` on every state whose
`job_id` is a genuine UUID value (below `2 ^ 128`, which every python
`uuid.UUID` is): every one of the twelve fields, `job_id` through the
`str`/`UUID` round trip and `messages` through `dict`/`parse_obj`, is
reconstructed equal. -/
theorem C10_state_dict_round_trip (s : ResearchState) (h : s.job_id < 2 ^ 128) :
    ResearchState.from_dict s.to_dict = some s := by
  have hu := uuidParse_uuidStr s.job_id h
  rw [ResearchState.from_dict]
  show ((some (uuidStr s.job_id)).bind fun jid =>
      ((some s.query).bind fun q =>
        ((uuidParse jid).bind fun jobId => some
          { job_id := jobId
            query := q
            constraints := (s.to_dict.constraints).getD {}
            output_config := (s.to_dict.output_config).getD {}
            messages := ((s.to_dict.messages).getD []).map MsgData.parse_obj
            sources := (s.to_dict.sources).getD []
            claims := (s.to_dict.claims).getD []
            citations := (s.to_dict.citations).getD []
            artifacts := (s.to_dict.artifacts).getD []
            current_node := (s.to_dict.current_node).getD "start"
            errors := (s.to_dict.errors).getD []
            metadata := (s.to_dict.metadata).getD {} }))) = some s
  rw [Option.some_bind, Option.some_bind, hu, Option.some_bind]
  show some
      { job_id := s.job_id
        query := s.query
        constraints := s.constraints
        output_config := s.output_config
        messages := (s.messages.map Msg.dict).map MsgData.parse_obj
        sources := s.sources
        claims := s.claims
        citations := s.citations
        artifacts := s.artifacts
        current_node := s.current_node
        errors := s.errors
        metadata := s.metadata } = some s
  rw [map_parse_obj_dict]

/-- Witness for C10 at a concrete state. -/
theorem C10_state_dict_round_trip_witness :
    sampleReviewState.job_id < 2 ^ 128 ∧
    ResearchState.from_dict sampleReviewState.to_dict = some sampleReviewState :=
  ⟨by decide, C10_state_dict_round_trip sampleReviewState (by decide)⟩

end ResearchRepo
